import Mathlib

/-!
Verification development for the sciety-discovery enrichment/pagination
pipeline, the TTL single-object cache, the OpenSearch recommendation
provider and the Sciety event-fold lists model.

Sequences are embedded as Lean lists; Python dict/mapping lookups are
embedded as functions into Option; fallible network calls are embedded as
Except values.  Components whose defining module is not part of the
excerpted sources (the pagination utilities, the cache classes, the
stats and metadata providers and the record type) are modelled from the
specification and marked as such in their doc comments.
-/

namespace ScietyDiscovery

/-- Modelled from the spec: the metadata enrichment slot of a Record
(descriptive metadata: title, publication date, authors), produced by the
Crossref metadata provider whose module is not among the excerpted sources. -/
structure ArticleMetaData where
  article_doi : String
  article_title : String
  published_date : Option Nat
  author_name_list : Option (List String)
  deriving DecidableEq, Repr

/-- Translated from sciety_labs/models usage in
google_sheet_article_image.py: ArticleImages holds an optional image URL. -/
structure ArticleImages where
  image_url : Option String
  deriving DecidableEq, Repr

/-- Modelled from the spec: the statistics enrichment slot of a Record
(precomputed counters from the event-fold projection); the evaluation
stats model module is not among the excerpted sources. -/
structure ArticleStats where
  evaluation_count : Nat
  deriving DecidableEq, Repr

/-- Modelled from the spec: a Record ("article mention") is an immutable
value with a stable identity key (a DOI string) plus optional enrichment
slots (statistics, descriptive metadata, image reference); the article
model module is not among the excerpted sources, its fields are evidenced
by the call sites in the excerpt. -/
structure ArticleMention where
  article_doi : String
  article_meta : Option ArticleMetaData
  article_stats : Option ArticleStats
  article_images : Option ArticleImages
  deriving DecidableEq, Repr

/-! ## Image enrichment stage

Translated from
src/sciety_labs/providers/google_sheet_article_image.py.  The in-memory
mapping `image_url_by_doi` is passed explicitly as a function. -/

/-- Translated from GoogleSheetArticleImageProvider.get_article_image_url_by_doi:
a plain dict `.get` on the in-memory mapping. -/
def get_article_image_url_by_doi
    (image_url_by_doi : String → Option String)
    (article_doi : String) : Option String :=
  image_url_by_doi article_doi

/-- Translated from GoogleSheetArticleImageProvider.get_article_images_by_doi. -/
def get_article_images_by_doi
    (image_url_by_doi : String → Option String)
    (article_doi : String) : ArticleImages :=
  { image_url := get_article_image_url_by_doi image_url_by_doi article_doi }

/-- Translated from
GoogleSheetArticleImageProvider.iter_article_mention_with_article_image_url:
a generator expression mapping `_replace(article_images=...)` over the
input iterable. -/
def iter_article_mention_with_article_image_url
    (image_url_by_doi : String → Option String)
    (article_mention_iterable : List ArticleMention) : List ArticleMention :=
  article_mention_iterable.map fun article_mention =>
    { article_mention with
        article_images :=
          some (get_article_images_by_doi image_url_by_doi
            article_mention.article_doi) }

/-! ## Page windower -/

/-- Modelled from the spec: `async_get_page_iterable` of
sciety_labs/utils/pagination.py is not among the excerpted sources (only
its call site in the aggregator is).  Per the spec: if `items_per_page`
is absent the input is returned unchanged and `page` is ignored;
otherwise `offset = (page - 1) * items_per_page` with `page < 1` clamped
to 1, the first `offset` items are skipped and at most `items_per_page`
further items are yielded. -/
def async_get_page_iterable (l : List α) (page : Nat)
    (items_per_page : Option Nat) : List α :=
  match items_per_page with
  | none => l
  | some k => (l.drop ((max page 1 - 1) * k)).take k

/-! ## Stats and metadata enrichment stages -/

/-- Modelled from the spec: the Stats stage
(`async_iter_article_mention_with_article_stats` of the evaluation stats
model, not among the excerpted sources) looks up precomputed counters
from an in-memory snapshot, O(1) per item, never fails, and populates
the statistics slot of every record, preserving length and order. -/
def async_iter_article_mention_with_article_stats
    (article_stats_by_doi : String → Option ArticleStats)
    (article_mention_iterable : List ArticleMention) : List ArticleMention :=
  article_mention_iterable.map fun article_mention =>
    { article_mention with
        article_stats := article_stats_by_doi article_mention.article_doi }

/-- Typed error for a whole-page provider transport failure, per the spec
error taxonomy (UpstreamTransportError: provider identity plus upstream
status if any). -/
structure UpstreamTransportError where
  provider : String
  upstream_status : Option Nat
  deriving DecidableEq, Repr

/-- Modelled from the spec: the Metadata stage
(`iter_article_mention_with_article_meta` of the Crossref metadata
provider, not among the excerpted sources) batches the whole current
page into one `lookup_many` request; a transport failure of the batched
call fails the stage, while a per-key miss leaves that record's metadata
slot empty and raises no error. -/
def iter_article_mention_with_article_meta
    (lookup_many :
      List String → Except UpstreamTransportError (String → Option ArticleMetaData))
    (article_mention_iterable : List ArticleMention) :
    Except UpstreamTransportError (List ArticleMention) :=
  match lookup_many (article_mention_iterable.map (·.article_doi)) with
  | .error e => .error e
  | .ok meta_by_doi =>
      .ok (article_mention_iterable.map fun article_mention =>
        { article_mention with
            article_meta := meta_by_doi article_mention.article_doi })

/-! ## Pipeline orchestrator

Translated from
src/sciety_labs/aggregators/article.py,
ArticleAggregator.async_iter_page_article_mention_with_article_meta_and_stats.
The three provider dependencies held by the aggregator object are passed
explicitly.  The debug-only lookahead sampling (guarded by
LOGGER.isEnabledFor) re-yields the same items and is omitted. -/

/-- Translated from
ArticleAggregator.async_iter_page_article_mention_with_article_meta_and_stats:
stats stage over the full upstream sequence, then the page windower with
(page, items_per_page), then the metadata stage, then the image stage. -/
def async_iter_page_article_mention_with_article_meta_and_stats
    (article_stats_by_doi : String → Option ArticleStats)
    (lookup_many :
      List String → Except UpstreamTransportError (String → Option ArticleMetaData))
    (image_url_by_doi : String → Option String)
    (article_mention_iterable : List ArticleMention)
    (page : Nat) (items_per_page : Option Nat) :
    Except UpstreamTransportError (List ArticleMention) :=
  let with_stats :=
    async_iter_article_mention_with_article_stats article_stats_by_doi
      article_mention_iterable
  match iter_article_mention_with_article_meta lookup_many
      (async_get_page_iterable with_stats page items_per_page) with
  | .error e => .error e
  | .ok with_meta =>
      .ok (iter_article_mention_with_article_image_url image_url_by_doi with_meta)

/-! ## Pagination state -/

/-- Modelled from the spec: the Page Window State record
`{is_empty, has_previous, has_next}` of sciety_labs/utils/pagination.py,
whose module is not among the excerpted sources. -/
structure UrlPaginationState where
  is_empty : Bool
  has_previous : Bool
  has_next : Bool
  deriving DecidableEq, Repr

/-- Modelled from the spec:
`get_url_pagination_state_for_pagination_parameters` of
sciety_labs/utils/pagination.py is not among the excerpted sources (only
its call site in main.py is).  Per the spec: `is_empty` is whether the
materialized page is empty, `has_previous = (page > 1)`, and `has_next`
comes from peeking one item past the requested page (offset clamped as
in the windower). -/
def get_url_pagination_state_for_pagination_parameters
    (S : List α) (page : Nat) (items_per_page : Nat) : UrlPaginationState :=
  let page_items := async_get_page_iterable S page (some items_per_page)
  { is_empty := page_items.isEmpty
    has_previous := decide (page > 1)
    has_next := !(S.drop ((max page 1 - 1) * items_per_page + items_per_page)).isEmpty }

/-! ## OpenSearch article recommendation

Translated from
src/sciety_labs/providers/opensearch_article_recommendation.py.  The
OpenSearch client is embedded as two functions: `client_get` for the
embedding-vector document lookup and `client_search` for the k-NN vector
search; embedding vectors are integer lists (their numeric contents are
irrelevant to the control flow). -/

/-- Translated from the hit documents consumed by
get_article_meta_from_document: the `_source` of a hit holds `doi` and
`title`. -/
structure OpenSearchHitSource where
  doi : String
  title : String
  deriving DecidableEq, Repr

/-- Translated from the OpenSearch hit shape: `hit['_source']`. -/
structure OpenSearchHit where
  source : OpenSearchHitSource
  deriving DecidableEq, Repr

/-- Translated from the document returned by `opensearch_client.get`:
an optional embedding vector under the configured mapping name
(`doc.get(embedding_vector_mapping_name)`). -/
structure OpenSearchGetDoc where
  embedding : Option (List Int)
  deriving DecidableEq, Repr

/-- Translated from ArticleRecommendation of
sciety_labs/providers/article_recommendation.py usage: a recommendation
carries the article DOI and its metadata. -/
structure ArticleRecommendation where
  article_doi : String
  article_meta : ArticleMetaData
  deriving DecidableEq, Repr

/-- Translated from ArticleRecommendationList usage: the recommendations
plus the timestamp taken at construction (`get_utcnow`), passed in
explicitly as `now`. -/
structure ArticleRecommendationList where
  recommendations : List ArticleRecommendation
  recommendation_timestamp : Nat
  deriving DecidableEq, Repr

/-- Translated from DEFAULT_OPENSEARCH_MAX_RECOMMENDATIONS. -/
def DEFAULT_OPENSEARCH_MAX_RECOMMENDATIONS : Nat := 5

/-- Translated from get_article_meta_from_document (the
`assert article_doi` merely guards against an empty DOI and does not
alter the value built). -/
def get_article_meta_from_document (document : OpenSearchHitSource) :
    ArticleMetaData :=
  { article_doi := document.doi
    article_title := document.title
    published_date := none
    author_name_list := none }

/-- Translated from iter_article_recommendation_from_opensearch_hits:
for each hit, build the metadata, skip the hit when its DOI is in
`exclude_article_dois`, otherwise yield a recommendation. -/
def iter_article_recommendation_from_opensearch_hits
    (hits : List OpenSearchHit) (exclude_article_dois : List String) :
    List ArticleRecommendation :=
  hits.filterMap fun hit =>
    let article_meta := get_article_meta_from_document hit.source
    if article_meta.article_doi ∈ exclude_article_dois then none
    else some { article_doi := article_meta.article_doi
                article_meta := article_meta }

/-- Translated from
OpenSearchArticleRecommendation._run_vector_search_and_get_hits: run the
k-NN query and keep at most `max_results` hits
(`hits['hits']['hits'][:max_results]`). -/
def run_vector_search_and_get_hits
    (client_search : List Int → Nat → List OpenSearchHit)
    (query_vector : List Int) (max_results : Nat) : List OpenSearchHit :=
  (client_search query_vector max_results).take max_results

/-- Translated from
OpenSearchArticleRecommendation.get_article_recommendation_list_for_article_doi:
a falsy max_recommendations (None or 0) becomes the default; a missing
document or a missing/empty embedding vector yields an empty
recommendation list; otherwise the vector search runs with
`1 + max_recommendations` results and the hits are filtered with
`exclude_article_dois = {article_doi}`. -/
def get_article_recommendation_list_for_article_doi
    (client_get : String → Option OpenSearchGetDoc)
    (client_search : List Int → Nat → List OpenSearchHit)
    (now : Nat) (article_doi : String)
    (max_recommendations : Option Nat) : ArticleRecommendationList :=
  let effective_max : Nat :=
    match max_recommendations with
    | none => DEFAULT_OPENSEARCH_MAX_RECOMMENDATIONS
    | some 0 => DEFAULT_OPENSEARCH_MAX_RECOMMENDATIONS
    | some n => n
  match client_get article_doi with
  | none => { recommendations := [], recommendation_timestamp := now }
  | some doc =>
      match doc.embedding with
      | none => { recommendations := [], recommendation_timestamp := now }
      | some embedding_vector =>
          if embedding_vector.length = 0 then
            { recommendations := [], recommendation_timestamp := now }
          else
            let hits := run_vector_search_and_get_hits client_search
              embedding_vector (1 + effective_max)
            { recommendations :=
                iter_article_recommendation_from_opensearch_hits hits [article_doi]
              recommendation_timestamp := now }

/-! ## Sciety event lists model

Translated from src/sciety_discovery/models/lists.py.  Python dicts keyed
by list id are embedded as functions into Option (the list-meta dict, for
which only per-key content matters here, likewise); the
`defaultdict(set)` of article ids is embedded as a total function into
duplicate-free lists (absent key = empty set); event timestamps are Nat.
Python string truthiness (`if list_id and article_id`) is embedded as
inequality with the empty string. -/

/-- Translated from ListMetaData. -/
structure ListMetaData where
  list_id : String
  list_title : String
  list_description : String
  deriving DecidableEq, Repr

/-- Translated from OwnerMetaData. -/
structure OwnerMetaData where
  avatar_url : String
  deriving DecidableEq, Repr

/-- Translated from the `sciety_list` payload of a Sciety event
(keys list_id, list_name, list_description). -/
structure ScietyList where
  list_id : String
  list_name : String
  list_description : String
  deriving DecidableEq, Repr

/-- Translated from the `sciety_user` payload of a Sciety event (only
avatar_url is consumed). -/
structure ScietyUser where
  avatar_url : String
  deriving DecidableEq, Repr

/-- Translated from the event dicts consumed by
ScietyEventListsModel.__init__. -/
structure ScietyEvent where
  event_timestamp : Nat
  event_name : String
  sciety_list : ScietyList
  sciety_user : Option ScietyUser
  article_id : Option String
  deriving DecidableEq, Repr

/-- Translated from ScietyEventNames.ARTICLE_ADDED_TO_LIST. -/
def ARTICLE_ADDED_TO_LIST : String := "ArticleAddedToList"

/-- Translated from ScietyEventNames.ARTICLE_REMOVED_FROM_LIST. -/
def ARTICLE_REMOVED_FROM_LIST : String := "ArticleRemovedFromList"

/-- Translated from ListMetaData.from_sciety_event_list_meta. -/
def ListMetaData.from_sciety_event_list_meta (sciety_event_list_meta : ScietyList) :
    ListMetaData :=
  { list_id := sciety_event_list_meta.list_id
    list_title := sciety_event_list_meta.list_name
    list_description := sciety_event_list_meta.list_description }

/-- Translated from OwnerMetaData.from_sciety_event_user_meta. -/
def OwnerMetaData.from_sciety_event_user_meta (sciety_event_user_meta : ScietyUser) :
    OwnerMetaData :=
  { avatar_url := sciety_event_user_meta.avatar_url }

/-- Set insertion for the embedded `set.add`: append when absent. -/
def setAdd (a : String) (s : List String) : List String :=
  if a ∈ s then s else s ++ [a]

/-- The mutable state built by ScietyEventListsModel.__init__. -/
structure ScietyEventListsModelState where
  sciety_list_meta_by_list_id : String → Option ListMetaData
  owner_meta_by_list_id : String → Option OwnerMetaData
  article_ids_by_list_id : String → List String
  last_updated_by_list_id : String → Option Nat

/-- The empty state before the event fold (empty dicts; the
defaultdict(set) maps every key to the empty set). -/
def emptyListsModelState : ScietyEventListsModelState :=
  { sciety_list_meta_by_list_id := fun _ => none
    owner_meta_by_list_id := fun _ => none
    article_ids_by_list_id := fun _ => []
    last_updated_by_list_id := fun _ => none }

/-- Translated from the loop body of ScietyEventListsModel.__init__: one
event updates the list meta, owner meta, last-updated timestamp and the
article-id set; an ArticleRemovedFromList removal of an absent article id
is `try: remove except KeyError: pass`, embedded as total `List.erase`.
(The `if not sciety_list: continue` guard is unreachable for events whose
sciety_list payload subscripts successfully on the line before it.) -/
def processScietyEvent (state : ScietyEventListsModelState)
    (event : ScietyEvent) : ScietyEventListsModelState :=
  let list_meta := ListMetaData.from_sciety_event_list_meta event.sciety_list
  let list_id := list_meta.list_id
  let state1 :=
    { state with
        sciety_list_meta_by_list_id := fun k =>
          if k = list_id then some list_meta
          else state.sciety_list_meta_by_list_id k }
  let state2 :=
    match event.sciety_user with
    | some sciety_user =>
        if list_id ≠ "" then
          { state1 with
              owner_meta_by_list_id := fun k =>
                if k = list_id then
                  some (OwnerMetaData.from_sciety_event_user_meta sciety_user)
                else state1.owner_meta_by_list_id k }
        else state1
    | none => state1
  match event.article_id with
  | some article_id =>
      if list_id ≠ "" ∧ article_id ≠ "" then
        let state3 :=
          { state2 with
              last_updated_by_list_id := fun k =>
                if k = list_id then some event.event_timestamp
                else state2.last_updated_by_list_id k }
        let state4 :=
          if event.event_name = ARTICLE_ADDED_TO_LIST then
            { state3 with
                article_ids_by_list_id := fun k =>
                  if k = list_id then setAdd article_id (state3.article_ids_by_list_id k)
                  else state3.article_ids_by_list_id k }
          else state3
        if event.event_name = ARTICLE_REMOVED_FROM_LIST then
          { state4 with
              article_ids_by_list_id := fun k =>
                if k = list_id then (state4.article_ids_by_list_id k).erase article_id
                else state4.article_ids_by_list_id k }
        else state4
      else state2
  | none => state2

/-- Translated from ScietyEventListsModel.__init__: the fold of the event
sequence into the lists-model state. -/
def scietyEventListsModelInit (sciety_events : List ScietyEvent) :
    ScietyEventListsModelState :=
  sciety_events.foldl processScietyEvent emptyListsModelState

/-! ## TTL single-object cache

Modelled from the spec: the cache module
(InMemorySingleObjectCache / DummySingleObjectCache of
sciety_discovery/utils/cache.py and sciety_labs/utils/cache.py) is not
among the excerpted sources; only its construction with
`max_age_in_seconds` and its `get_or_load(load_fn)` call sites are.  Time
is an explicit Nat parameter; a fallible load is an Except value. -/

/-- Modelled from the spec: a Cache Entry `{value, loaded_at}`, created
on first successful load and replaced wholesale on each successful
refresh. -/
structure SingleObjectCacheEntry (V : Type) where
  value : V
  loaded_at : Nat

/-- Modelled from the spec: the in-memory single-object cache holding
`max_age_in_seconds` and zero or one entry. -/
structure InMemorySingleObjectCache (V : Type) where
  max_age_in_seconds : Nat
  entry : Option (SingleObjectCacheEntry V)

/-- Outcome of one `get_or_load` call: the returned (or raised) result,
the cache state afterwards, and whether `load_fn` was invoked. -/
structure GetOrLoadOutcome (E V : Type) where
  result : Except E V
  cache : InMemorySingleObjectCache V
  load_invoked : Bool

/-- Modelled from the spec: `get_or_load(load_fn)` at time `now`.  If an
entry exists and `now - loaded_at < max_age` its value is returned
without invoking `load_fn`; otherwise `load_fn` runs: on success the new
value and fresh timestamp atomically replace the entry, on failure the
previous entry (if any) is retained and the failure is propagated. -/
def get_or_load {V E : Type} (cache : InMemorySingleObjectCache V) (now : Nat)
    (load_fn : Unit → Except E V) : GetOrLoadOutcome E V :=
  match cache.entry with
  | some entry =>
      if now - entry.loaded_at < cache.max_age_in_seconds then
        { result := .ok entry.value, cache := cache, load_invoked := false }
      else
        match load_fn () with
        | .ok v =>
            { result := .ok v
              cache := { cache with entry := some ⟨v, now⟩ }
              load_invoked := true }
        | .error e => { result := .error e, cache := cache, load_invoked := true }
  | none =>
      match load_fn () with
      | .ok v =>
          { result := .ok v
            cache := { cache with entry := some ⟨v, now⟩ }
            load_invoked := true }
      | .error e => { result := .error e, cache := cache, load_invoked := true }

/-! ## Single-flight concurrency machine

Modelled from the spec: the refresh coordination of the cache on a miss
(one mutex/condition-variable pair guarding an in-flight promise that
late arrivals attach to).  Two callers run the `get_or_load` protocol on
a cold shared cache whose load produces the fixed result `r`; an
arbitrary finite schedule (a list naming which caller takes the next
atomic step) interleaves them.  Atomic steps: enter (check entry /
in-flight flag and either return, wait or claim the load), load (the one
`load_fn` invocation plus publication of its result) and wait (poll the
published promise). -/

/-- Program counter of one caller in the single-flight protocol. -/
inductive CacheCallerPC where
  | start
  | loading
  | waiting
  | finished
  deriving DecidableEq, Repr

/-- Shared cache-instance state: the entry, the in-flight flag, the
published promise of the current load episode, and how many times
`load_fn` has been invoked. -/
structure SingleFlightShared (V E : Type) where
  entry : Option V
  in_flight : Bool
  promise : Option (Except E V)
  load_count : Nat

/-- One caller: its program counter and its observed result. -/
structure CacheCaller (V E : Type) where
  pc : CacheCallerPC
  res : Option (Except E V)

/-- The whole two-caller system. -/
structure SingleFlightSystem (V E : Type) where
  shared : SingleFlightShared V E
  caller1 : CacheCaller V E
  caller2 : CacheCaller V E

/-- One atomic step of one caller of the single-flight protocol, with
load result `r`: entering returns the cached value if present, waits if
a load is in flight, else claims the load; the load step invokes
`load_fn` once and publishes `r` (replacing the entry only on success —
on failure the previous entry is retained); a waiting caller polls the
promise. -/
def singleFlightCallerStep {V E : Type} (r : Except E V)
    (shared : SingleFlightShared V E) (c : CacheCaller V E) :
    SingleFlightShared V E × CacheCaller V E :=
  match c.pc with
  | .start =>
      match shared.entry with
      | some v => (shared, { pc := .finished, res := some (.ok v) })
      | none =>
          if shared.in_flight then (shared, { c with pc := .waiting })
          else ({ shared with in_flight := true }, { c with pc := .loading })
  | .loading =>
      ({ shared with
          load_count := shared.load_count + 1
          in_flight := false
          promise := some r
          entry := match r with | .ok v => some v | .error _ => shared.entry },
        { pc := .finished, res := some r })
  | .waiting =>
      match shared.promise with
      | some out => (shared, { pc := .finished, res := some out })
      | none => (shared, c)
  | .finished => (shared, c)

/-- One system step: the scheduled caller (true = caller1) takes its next
atomic step. -/
def singleFlightStep {V E : Type} (r : Except E V)
    (s : SingleFlightSystem V E) (who : Bool) : SingleFlightSystem V E :=
  if who then
    let sc := singleFlightCallerStep r s.shared s.caller1
    { s with shared := sc.1, caller1 := sc.2 }
  else
    let sc := singleFlightCallerStep r s.shared s.caller2
    { s with shared := sc.1, caller2 := sc.2 }

/-- The cold-cache starting point: no entry, no load in flight, no
promise, no invocations, both callers about to enter. -/
def coldSingleFlightSystem (V E : Type) : SingleFlightSystem V E :=
  ⟨⟨none, false, none, 0⟩, ⟨.start, none⟩, ⟨.start, none⟩⟩

/-- Run the two-caller system under a schedule. -/
def runSingleFlight {V E : Type} (r : Except E V) (schedule : List Bool) :
    SingleFlightSystem V E :=
  schedule.foldl (singleFlightStep r) (coldSingleFlightSystem V E)

/-- The states reachable from the cold start when the load succeeds with
value `v` (exhaustive enumeration, proved closed under steps below). -/
def singleFlightOkReach {V E : Type} (v : V) (s : SingleFlightSystem V E) : Prop :=
  s = ⟨⟨none, false, none, 0⟩, ⟨.start, none⟩, ⟨.start, none⟩⟩
  ∨ s = ⟨⟨none, true, none, 0⟩, ⟨.loading, none⟩, ⟨.start, none⟩⟩
  ∨ s = ⟨⟨none, true, none, 0⟩, ⟨.start, none⟩, ⟨.loading, none⟩⟩
  ∨ s = ⟨⟨none, true, none, 0⟩, ⟨.loading, none⟩, ⟨.waiting, none⟩⟩
  ∨ s = ⟨⟨none, true, none, 0⟩, ⟨.waiting, none⟩, ⟨.loading, none⟩⟩
  ∨ s = ⟨⟨some v, false, some (.ok v), 1⟩, ⟨.finished, some (.ok v)⟩, ⟨.start, none⟩⟩
  ∨ s = ⟨⟨some v, false, some (.ok v), 1⟩, ⟨.start, none⟩, ⟨.finished, some (.ok v)⟩⟩
  ∨ s = ⟨⟨some v, false, some (.ok v), 1⟩, ⟨.finished, some (.ok v)⟩, ⟨.waiting, none⟩⟩
  ∨ s = ⟨⟨some v, false, some (.ok v), 1⟩, ⟨.waiting, none⟩, ⟨.finished, some (.ok v)⟩⟩
  ∨ s = ⟨⟨some v, false, some (.ok v), 1⟩, ⟨.finished, some (.ok v)⟩,
      ⟨.finished, some (.ok v)⟩⟩

/-- The states reachable from the cold start when the load fails with
`e` (exhaustive enumeration, proved closed under steps below; a caller
entering after a completed failed load may legitimately start a second
load, so the count can reach 2 — but only for callers that were not
waiting on the first load). -/
def singleFlightErrorReach {V E : Type} (e : E) (s : SingleFlightSystem V E) : Prop :=
  s = ⟨⟨none, false, none, 0⟩, ⟨.start, none⟩, ⟨.start, none⟩⟩
  ∨ s = ⟨⟨none, true, none, 0⟩, ⟨.loading, none⟩, ⟨.start, none⟩⟩
  ∨ s = ⟨⟨none, true, none, 0⟩, ⟨.start, none⟩, ⟨.loading, none⟩⟩
  ∨ s = ⟨⟨none, true, none, 0⟩, ⟨.loading, none⟩, ⟨.waiting, none⟩⟩
  ∨ s = ⟨⟨none, true, none, 0⟩, ⟨.waiting, none⟩, ⟨.loading, none⟩⟩
  ∨ s = ⟨⟨none, false, some (.error e), 1⟩, ⟨.finished, some (.error e)⟩, ⟨.start, none⟩⟩
  ∨ s = ⟨⟨none, false, some (.error e), 1⟩, ⟨.start, none⟩, ⟨.finished, some (.error e)⟩⟩
  ∨ s = ⟨⟨none, false, some (.error e), 1⟩, ⟨.finished, some (.error e)⟩, ⟨.waiting, none⟩⟩
  ∨ s = ⟨⟨none, false, some (.error e), 1⟩, ⟨.waiting, none⟩, ⟨.finished, some (.error e)⟩⟩
  ∨ s = ⟨⟨none, true, some (.error e), 1⟩, ⟨.finished, some (.error e)⟩, ⟨.loading, none⟩⟩
  ∨ s = ⟨⟨none, true, some (.error e), 1⟩, ⟨.loading, none⟩, ⟨.finished, some (.error e)⟩⟩
  ∨ s = ⟨⟨none, false, some (.error e), 1⟩, ⟨.finished, some (.error e)⟩,
      ⟨.finished, some (.error e)⟩⟩
  ∨ s = ⟨⟨none, false, some (.error e), 2⟩, ⟨.finished, some (.error e)⟩,
      ⟨.finished, some (.error e)⟩⟩

end ScietyDiscovery

namespace ScietyDiscovery

/-! ## Claim theorems C1 to C4 -/

/-- Claim C1: for every sequence S, every page >= 1 and every positive
items_per_page k, the windower yields exactly
min(k, max(0, len(S) - (page-1)*k)) items, skipping the first (page-1)*k
items; if items_per_page is absent the input is returned unchanged
regardless of page.  (Nat subtraction makes the max(0, _) implicit.) -/
theorem async_get_page_iterable_window_spec {α : Type} (S : List α)
    (page k : Nat) (hpage : 1 ≤ page) (hk : 0 < k) :
    (async_get_page_iterable S page (some k)).length
        = min k (S.length - (page - 1) * k)
      ∧ async_get_page_iterable S page (some k)
        = (S.drop ((page - 1) * k)).take k
      ∧ async_get_page_iterable S page none = S := by
  have hmax : max page 1 = page := by omega
  refine ⟨?_, ?_, rfl⟩
  · simp [async_get_page_iterable, hmax, List.length_take, List.length_drop]
  · simp [async_get_page_iterable, hmax]

/-- Witness for C1: page 2 of size 2 over a 5-element sequence contains
exactly the items at indices 2 and 3. -/
theorem async_get_page_iterable_window_spec_witness :
    1 ≤ 2 ∧ 0 < 2
      ∧ ((async_get_page_iterable [10, 11, 12, 13, 14] 2 (some 2)).length
            = min 2 ([10, 11, 12, 13, 14].length - (2 - 1) * 2)
          ∧ async_get_page_iterable [10, 11, 12, 13, 14] 2 (some 2)
            = ([10, 11, 12, 13, 14].drop ((2 - 1) * 2)).take 2
          ∧ async_get_page_iterable [10, 11, 12, 13, 14] 2 none
            = [10, 11, 12, 13, 14]) :=
  ⟨by decide, by decide,
    async_get_page_iterable_window_spec [10, 11, 12, 13, 14] 2 2
      (by decide) (by decide)⟩

/-- Claim C2: every enrichment stage preserves length and DOI order and
changes each record only in the one slot it populates; a record whose
enrichment value is unavailable keeps that slot's value empty and is not
dropped.  Stated for the image stage (from the source), the stats stage
and the successful metadata stage: each output position holds the input
record with only the stage's slot replaced by the provider lookup result
(an absent lookup result leaves the populated slot's value empty). -/
theorem enrichment_stages_preserve_length_and_order
    (image_url_by_doi : String → Option String)
    (article_stats_by_doi : String → Option ArticleStats)
    (meta_by_doi : String → Option ArticleMetaData)
    (lookup_many :
      List String → Except UpstreamTransportError (String → Option ArticleMetaData))
    (l : List ArticleMention)
    (hlookup : ∀ ks, lookup_many ks = .ok meta_by_doi) :
    ((iter_article_mention_with_article_image_url image_url_by_doi l).length
          = l.length
        ∧ (iter_article_mention_with_article_image_url image_url_by_doi l).map
            (·.article_doi) = l.map (·.article_doi)
        ∧ ∀ i : Nat, (iter_article_mention_with_article_image_url image_url_by_doi l)[i]?
            = (l[i]?).map fun am : ArticleMention =>
                { am with
                    article_images :=
                      some (ArticleImages.mk (image_url_by_doi am.article_doi)) })
      ∧ ((async_iter_article_mention_with_article_stats article_stats_by_doi l).length
            = l.length
          ∧ (async_iter_article_mention_with_article_stats article_stats_by_doi l).map
              (·.article_doi) = l.map (·.article_doi)
          ∧ ∀ i : Nat, (async_iter_article_mention_with_article_stats article_stats_by_doi l)[i]?
              = (l[i]?).map fun am : ArticleMention =>
                  { am with article_stats := article_stats_by_doi am.article_doi })
      ∧ ∃ out, iter_article_mention_with_article_meta lookup_many l = .ok out
          ∧ out.length = l.length
          ∧ out.map (·.article_doi) = l.map (·.article_doi)
          ∧ ∀ i : Nat, out[i]?
              = (l[i]?).map fun am : ArticleMention =>
                  { am with article_meta := meta_by_doi am.article_doi } := by
  refine ⟨⟨?_, ?_, ?_⟩, ⟨?_, ?_, ?_⟩, ?_⟩
  · simp [iter_article_mention_with_article_image_url]
  · simp [iter_article_mention_with_article_image_url,
      get_article_images_by_doi, get_article_image_url_by_doi]
  · intro i
    simp [iter_article_mention_with_article_image_url,
      get_article_images_by_doi, get_article_image_url_by_doi,
      List.getElem?_map]
  · simp [async_iter_article_mention_with_article_stats]
  · simp [async_iter_article_mention_with_article_stats]
  · intro i
    simp [async_iter_article_mention_with_article_stats, List.getElem?_map]
  · refine ⟨l.map fun am => { am with article_meta := meta_by_doi am.article_doi },
      ?_, ?_, ?_, ?_⟩
    · simp [iter_article_mention_with_article_meta, hlookup]
    · simp
    · simp
    · intro i
      simp [List.getElem?_map]

/-- Witness for C2: a two-record sequence where only the first DOI has an
image, stats or metadata; the second record keeps empty slot values and
is not dropped. -/
theorem enrichment_stages_preserve_length_and_order_witness :
    (iter_article_mention_with_article_image_url
          (fun d => if d = "10.1/a" then some "img-a" else none)
          [ArticleMention.mk "10.1/a" none none none,
            ArticleMention.mk "10.1/b" none none none]).map (·.article_doi)
      = [ArticleMention.mk "10.1/a" none none none,
          ArticleMention.mk "10.1/b" none none none].map (·.article_doi) :=
  (enrichment_stages_preserve_length_and_order
    (fun d => if d = "10.1/a" then some "img-a" else none)
    (fun d => if d = "10.1/a" then some (ArticleStats.mk 3) else none)
    (fun d => if d = "10.1/a" then some (ArticleMetaData.mk "10.1/a" "A" none none) else none)
    (fun _ => .ok fun d => if d = "10.1/a" then some (ArticleMetaData.mk "10.1/a" "A" none none) else none)
    [ArticleMention.mk "10.1/a" none none none,
      ArticleMention.mk "10.1/b" none none none]
    (fun _ => rfl)).1.2.1

/-- Claim C3: the orchestrator applies its transforms in exactly this
order: stats over the full upstream sequence, then the page windower
with (page, items_per_page), then metadata, then image; and the
network-bound metadata stage is applied only to the windowed
subsequence, which contains at most items_per_page records no matter
how long the upstream sequence is. -/
theorem async_iter_page_orders_stages_and_windows_before_metadata
    (article_stats_by_doi : String → Option ArticleStats)
    (lookup_many :
      List String → Except UpstreamTransportError (String → Option ArticleMetaData))
    (image_url_by_doi : String → Option String)
    (l : List ArticleMention) (page : Nat) (items_per_page : Option Nat) :
    async_iter_page_article_mention_with_article_meta_and_stats
        article_stats_by_doi lookup_many image_url_by_doi l page items_per_page
      = (iter_article_mention_with_article_meta lookup_many
          (async_get_page_iterable
            (async_iter_article_mention_with_article_stats article_stats_by_doi l)
            page items_per_page)).map
          (iter_article_mention_with_article_image_url image_url_by_doi)
      ∧ ∀ k, items_per_page = some k →
          (async_get_page_iterable
            (async_iter_article_mention_with_article_stats article_stats_by_doi l)
            page (some k)).length ≤ k := by
  constructor
  · unfold async_iter_page_article_mention_with_article_meta_and_stats
    cases h : iter_article_mention_with_article_meta lookup_many
        (async_get_page_iterable
          (async_iter_article_mention_with_article_stats article_stats_by_doi l)
          page items_per_page) <;>
      simp [Except.map, h]
  · intro k _
    simp [async_get_page_iterable, List.length_take]

/-- Witness for C3: with ten upstream records and a page size of 3, the
orchestrator equals the ordered four-stage composition and the metadata
stage sees at most 3 records. -/
theorem async_iter_page_orders_stages_witness :
    (async_iter_page_article_mention_with_article_meta_and_stats
          (fun _ => none) (fun _ => .ok fun _ => none) (fun _ => none)
          (List.range 10 |>.map fun i => ArticleMention.mk (toString i) none none none)
          2 (some 3)
        = (iter_article_mention_with_article_meta (fun _ => .ok fun _ => none)
            (async_get_page_iterable
              (async_iter_article_mention_with_article_stats (fun _ => none)
                (List.range 10 |>.map fun i =>
                  ArticleMention.mk (toString i) none none none))
              2 (some 3))).map
            (iter_article_mention_with_article_image_url (fun _ => none)))
      ∧ (async_get_page_iterable
          (async_iter_article_mention_with_article_stats (fun _ => none)
            (List.range 10 |>.map fun i =>
              ArticleMention.mk (toString i) none none none))
          2 (some 3)).length ≤ 3 := by
  have h := async_iter_page_orders_stages_and_windows_before_metadata
    (fun _ => none) (fun _ => .ok fun _ => none) (fun _ => none)
    (List.range 10 |>.map fun i => ArticleMention.mk (toString i) none none none)
    2 (some 3)
  exact ⟨h.1, h.2 3 rfl⟩

/-- Claim C4: the pagination state satisfies: has_next is true iff at
least one item exists strictly beyond the windowed page, has_previous is
true iff page > 1, and is_empty is true iff the materialized page has
length 0; and the windowed page consists of the k items after the first
(page-1)*k. -/
theorem get_url_pagination_state_spec {α : Type} (S : List α)
    (page k : Nat) (hpage : 1 ≤ page) (hk : 0 < k) :
    ((get_url_pagination_state_for_pagination_parameters S page k).has_next = true
        ↔ (page - 1) * k + k < S.length)
      ∧ ((get_url_pagination_state_for_pagination_parameters S page k).has_previous = true
        ↔ 1 < page)
      ∧ ((get_url_pagination_state_for_pagination_parameters S page k).is_empty = true
        ↔ (async_get_page_iterable S page (some k)).length = 0)
      ∧ async_get_page_iterable S page (some k)
        = (S.drop ((page - 1) * k)).take k := by
  have hmax : max page 1 = page := by omega
  refine ⟨?_, ?_, ?_, ?_⟩
  · simp [get_url_pagination_state_for_pagination_parameters, hmax,
      List.isEmpty_iff_length_eq_zero, List.length_drop] <;> omega
  · simp [get_url_pagination_state_for_pagination_parameters]
  · simp [get_url_pagination_state_for_pagination_parameters,
      List.isEmpty_iff_length_eq_zero]
  · simp [async_get_page_iterable, hmax]

/-- Witness for C4: seven records with items_per_page 3 and page 2 give
the windowed page of records 4 to 6 with has_next and has_previous both
true (instantiating the biconditionals at a concrete input). -/
theorem get_url_pagination_state_spec_witness :
    1 ≤ 2 ∧ 0 < 3
      ∧ (((get_url_pagination_state_for_pagination_parameters
              [1, 2, 3, 4, 5, 6, 7] 2 3).has_next = true
            ↔ (2 - 1) * 3 + 3 < [1, 2, 3, 4, 5, 6, 7].length)
          ∧ ((get_url_pagination_state_for_pagination_parameters
              [1, 2, 3, 4, 5, 6, 7] 2 3).has_previous = true
            ↔ 1 < 2)
          ∧ ((get_url_pagination_state_for_pagination_parameters
              [1, 2, 3, 4, 5, 6, 7] 2 3).is_empty = true
            ↔ (async_get_page_iterable [1, 2, 3, 4, 5, 6, 7] 2 (some 3)).length = 0)
          ∧ async_get_page_iterable [1, 2, 3, 4, 5, 6, 7] 2 (some 3)
            = ([1, 2, 3, 4, 5, 6, 7].drop ((2 - 1) * 3)).take 3) :=
  ⟨by decide, by decide,
    get_url_pagination_state_spec [1, 2, 3, 4, 5, 6, 7] 2 3 (by decide) (by decide)⟩

/-! ## Claim theorems C5 to C7 -/

/-- The successful-load reachable-state set is closed under system
steps. -/
theorem singleFlightOkReach_step {V E : Type} (v : V)
    (s : SingleFlightSystem V E) (who : Bool)
    (h : singleFlightOkReach v s) :
    singleFlightOkReach v (singleFlightStep (Except.ok v) s who) := by
  unfold singleFlightOkReach at h ⊢
  cases who <;>
    rcases h with h | h | h | h | h | h | h | h | h | h <;>
    subst h <;>
    simp [singleFlightStep, singleFlightCallerStep]

/-- Every schedule keeps the successful-load system within its
reachable-state set. -/
theorem singleFlightOkReach_run {V E : Type} (v : V) (schedule : List Bool) :
    singleFlightOkReach v
      (runSingleFlight (Except.ok v) schedule : SingleFlightSystem V E) := by
  suffices h : ∀ (sch : List Bool) (s : SingleFlightSystem V E),
      singleFlightOkReach v s →
      singleFlightOkReach v (sch.foldl (singleFlightStep (Except.ok v)) s) by
    exact h schedule _ (Or.inl rfl)
  intro sch
  induction sch with
  | nil => exact fun s hs => hs
  | cons who rest ih =>
      exact fun s hs => ih _ (singleFlightOkReach_step v s who hs)

/-- The failing-load reachable-state set is closed under system steps. -/
theorem singleFlightErrorReach_step {V E : Type} (e : E)
    (s : SingleFlightSystem V E) (who : Bool)
    (h : singleFlightErrorReach e s) :
    singleFlightErrorReach e (singleFlightStep (Except.error e) s who) := by
  unfold singleFlightErrorReach at h ⊢
  cases who <;>
    rcases h with h | h | h | h | h | h | h | h | h | h | h | h | h <;>
    subst h <;>
    simp [singleFlightStep, singleFlightCallerStep]

/-- Every schedule keeps the failing-load system within its
reachable-state set. -/
theorem singleFlightErrorReach_run {V E : Type} (e : E) (schedule : List Bool) :
    singleFlightErrorReach e
      (runSingleFlight (Except.error e) schedule : SingleFlightSystem V E) := by
  suffices h : ∀ (sch : List Bool) (s : SingleFlightSystem V E),
      singleFlightErrorReach e s →
      singleFlightErrorReach e (sch.foldl (singleFlightStep (Except.error e)) s) by
    exact h schedule _ (Or.inl rfl)
  intro sch
  induction sch with
  | nil => exact fun s hs => hs
  | cons who rest ih =>
      exact fun s hs => ih _ (singleFlightErrorReach_step e s who hs)

/-- Claim C5: on a cold cache, under every interleaving of two
concurrent get_or_load callers with a (possibly slow) successful load,
load_fn is invoked at most once at any point, and when both callers have
completed it was invoked exactly once and both callers observed the same
loaded value. -/
theorem cache_single_flight_cold_load_once {V E : Type} (v : V)
    (schedule : List Bool) :
    (runSingleFlight (Except.ok v) schedule : SingleFlightSystem V E).shared.load_count ≤ 1
    ∧ ((runSingleFlight (Except.ok v) schedule : SingleFlightSystem V E).caller1.pc
          = CacheCallerPC.finished →
        (runSingleFlight (Except.ok v) schedule : SingleFlightSystem V E).caller2.pc
          = CacheCallerPC.finished →
        (runSingleFlight (Except.ok v) schedule : SingleFlightSystem V E).shared.load_count = 1
        ∧ (runSingleFlight (Except.ok v) schedule : SingleFlightSystem V E).caller1.res
            = some (Except.ok v)
        ∧ (runSingleFlight (Except.ok v) schedule : SingleFlightSystem V E).caller2.res
            = some (Except.ok v)) := by
  have h := singleFlightOkReach_run (V := V) (E := E) v schedule
  unfold singleFlightOkReach at h
  rcases h with h | h | h | h | h | h | h | h | h | h <;> rw [h] <;> simp

/-- Witness for C5: the schedule where caller 1 claims the load, caller
2 arrives during the in-flight load and waits, the load completes, and
caller 2 picks up the promised value: one invocation, both callers see
the loaded value. -/
theorem cache_single_flight_cold_load_once_witness :
    (runSingleFlight (Except.ok 42) [true, false, true, false]
        : SingleFlightSystem Nat String).caller1.pc = CacheCallerPC.finished
    ∧ (runSingleFlight (Except.ok 42) [true, false, true, false]
        : SingleFlightSystem Nat String).caller2.pc = CacheCallerPC.finished
    ∧ ((runSingleFlight (Except.ok 42) [true, false, true, false]
          : SingleFlightSystem Nat String).shared.load_count = 1
        ∧ (runSingleFlight (Except.ok 42) [true, false, true, false]
            : SingleFlightSystem Nat String).caller1.res = some (Except.ok 42)
        ∧ (runSingleFlight (Except.ok 42) [true, false, true, false]
            : SingleFlightSystem Nat String).caller2.res = some (Except.ok 42)) :=
  ⟨rfl, rfl,
    (cache_single_flight_cold_load_once 42 [true, false, true, false]).2 rfl rfl⟩

/-- Claim C6: a value successfully loaded at time T is returned
unchanged, without invoking load_fn, by every get_or_load call strictly
before T + max_age, and a get_or_load call at or past T + max_age
invokes load_fn again. -/
theorem get_or_load_ttl {V E : Type} (max_age T t1 t2 : Nat) (v : V)
    (load_fn : Unit → Except E V)
    (hpos : 0 < max_age) (hfresh : t1 < T + max_age) (hstale : T + max_age ≤ t2) :
    get_or_load ⟨max_age, some ⟨v, T⟩⟩ t1 load_fn
      = ⟨.ok v, ⟨max_age, some ⟨v, T⟩⟩, false⟩
    ∧ (get_or_load ⟨max_age, some ⟨v, T⟩⟩ t2 load_fn).load_invoked = true := by
  constructor
  · have hlt : t1 - T < max_age := by omega
    simp [get_or_load, hlt]
  · have hge : ¬(t2 - T < max_age) := by omega
    cases hl : load_fn () <;> simp [get_or_load, hge, hl]

/-- Witness for C6: a value loaded at 100 with max_age 10 is served
from the cache at 109 and reloaded at 110. -/
theorem get_or_load_ttl_witness :
    0 < 10 ∧ 109 < 100 + 10 ∧ 100 + 10 ≤ 110
    ∧ (get_or_load ⟨10, some ⟨7, 100⟩⟩ 109 (fun _ => Except.error "down")
          = ⟨.ok 7, ⟨10, some ⟨(7 : Nat), 100⟩⟩, false⟩
        ∧ (get_or_load ⟨10, some ⟨(7 : Nat), 100⟩⟩ 110
            (fun _ => Except.error "down")).load_invoked = true) :=
  ⟨by decide, by decide, by decide,
    get_or_load_ttl 10 100 109 110 7 (fun _ => Except.error "down")
      (by decide) (by decide) (by decide)⟩

/-- Claim C7: a failed load replaces nothing: the previous entry is
retained unchanged, the failure is propagated to the caller that
triggered the load, every caller that was waiting on that same in-flight
load also receives the failure (and the failed load leaves no entry
behind), and a caller arriving afterwards while the previous entry is
still valid receives the previous good value without a load. -/
theorem get_or_load_failure_semantics {V E : Type} (max_age T t t2 : Nat)
    (v : V) (e : E) (failing_load : Unit → Except E V)
    (hfail : failing_load () = .error e)
    (hpos : 0 < max_age)
    (hstale : T + max_age ≤ t) (hvalid : t2 < T + max_age) :
    (get_or_load ⟨max_age, some ⟨v, T⟩⟩ t failing_load).result = .error e
    ∧ (get_or_load ⟨max_age, some ⟨v, T⟩⟩ t failing_load).load_invoked = true
    ∧ (get_or_load ⟨max_age, some ⟨v, T⟩⟩ t failing_load).cache
        = ⟨max_age, some ⟨v, T⟩⟩
    ∧ (get_or_load (get_or_load ⟨max_age, some ⟨v, T⟩⟩ t failing_load).cache
        t2 failing_load).result = .ok v
    ∧ (get_or_load (get_or_load ⟨max_age, some ⟨v, T⟩⟩ t failing_load).cache
        t2 failing_load).load_invoked = false
    ∧ ∀ schedule : List Bool,
        (runSingleFlight (Except.error e) schedule
            : SingleFlightSystem V E).shared.entry = none
        ∧ (∀ x, (runSingleFlight (Except.error e) schedule
              : SingleFlightSystem V E).caller1.res = some x → x = Except.error e)
        ∧ (∀ x, (runSingleFlight (Except.error e) schedule
              : SingleFlightSystem V E).caller2.res = some x → x = Except.error e) := by
  have hmiss : ¬(t - T < max_age) := by omega
  have hfresh : t2 - T < max_age := by omega
  refine ⟨?_, ?_, ?_, ?_, ?_, ?_⟩
  · simp [get_or_load, hmiss, hfail]
  · simp [get_or_load, hmiss, hfail]
  · simp [get_or_load, hmiss, hfail]
  · simp [get_or_load, hmiss, hfail, hfresh]
  · simp [get_or_load, hmiss, hfail, hfresh]
  · intro schedule
    have h := singleFlightErrorReach_run (V := V) (E := E) e schedule
    unfold singleFlightErrorReach at h
    rcases h with h | h | h | h | h | h | h | h | h | h | h | h | h <;> rw [h] <;>
      simp

/-- Witness for C7: with an entry loaded at 100, max_age 10, a failing
load triggered at 115 propagates the error and a caller at 105 (still
valid) receives the previous good value. -/
theorem get_or_load_failure_semantics_witness :
    ((fun _ : Unit => Except.error (α := Nat) "boom") () = Except.error "boom")
    ∧ 0 < 10 ∧ 100 + 10 ≤ 115 ∧ 105 < 100 + 10
    ∧ (get_or_load ⟨10, some ⟨(7 : Nat), 100⟩⟩ 115
        (fun _ => Except.error "boom")).result = .error "boom"
    ∧ (get_or_load (get_or_load ⟨10, some ⟨(7 : Nat), 100⟩⟩ 115
        (fun _ => Except.error "boom")).cache 105
        (fun _ => Except.error "boom")).result = .ok 7 :=
  ⟨rfl, by decide, by decide, by decide,
    (get_or_load_failure_semantics 10 100 115 105 7 "boom"
      (fun _ => Except.error "boom") rfl (by decide) (by decide) (by decide)).1,
    (get_or_load_failure_semantics 10 100 115 105 7 "boom"
      (fun _ => Except.error "boom") rfl (by decide) (by decide) (by decide)).2.2.2.1⟩

/-! ## Claim theorems C8 to C10 -/

/-- Claim C8: if the metadata stage's whole-page batched call fails with
a transport error, the page request fails with that typed error and no
partially-enriched page is returned; whereas with a successful batched
response, every windowed record is emitted (a record whose key the
provider omitted simply carries an empty metadata slot) and no error is
raised. -/
theorem get_page_transport_error_vs_per_item_miss
    (article_stats_by_doi : String → Option ArticleStats)
    (image_url_by_doi : String → Option String)
    (l : List ArticleMention) (page : Nat) (items_per_page : Option Nat)
    (e : UpstreamTransportError)
    (meta_by_doi : String → Option ArticleMetaData)
    (failing_lookup ok_lookup :
      List String → Except UpstreamTransportError (String → Option ArticleMetaData))
    (hfail : ∀ ks, failing_lookup ks = .error e)
    (hok : ∀ ks, ok_lookup ks = .ok meta_by_doi) :
    async_iter_page_article_mention_with_article_meta_and_stats
        article_stats_by_doi failing_lookup image_url_by_doi l page items_per_page
      = .error e
      ∧ ∃ out,
          async_iter_page_article_mention_with_article_meta_and_stats
              article_stats_by_doi ok_lookup image_url_by_doi l page items_per_page
            = .ok out
          ∧ ∀ i : Nat, out[i]?
              = ((async_get_page_iterable
                    (async_iter_article_mention_with_article_stats
                      article_stats_by_doi l) page items_per_page)[i]?).map
                  fun am : ArticleMention =>
                    { am with
                        article_meta := meta_by_doi am.article_doi
                        article_images :=
                          some (ArticleImages.mk (image_url_by_doi am.article_doi)) } := by
  constructor
  · simp [async_iter_page_article_mention_with_article_meta_and_stats,
      iter_article_mention_with_article_meta, hfail]
  · refine ⟨iter_article_mention_with_article_image_url image_url_by_doi
      ((async_get_page_iterable
        (async_iter_article_mention_with_article_stats article_stats_by_doi l)
        page items_per_page).map fun am =>
          { am with article_meta := meta_by_doi am.article_doi }), ?_, ?_⟩
    · simp [async_iter_page_article_mention_with_article_meta_and_stats,
        iter_article_mention_with_article_meta, hok]
    · intro i
      cases hx : (async_get_page_iterable
          (async_iter_article_mention_with_article_stats article_stats_by_doi l)
          page items_per_page)[i]? <;>
        simp [iter_article_mention_with_article_image_url,
          get_article_images_by_doi, get_article_image_url_by_doi,
          List.getElem?_map, hx]

/-- Witness for C8: a three-record upstream where the provider knows two
of the three DOIs; the failing provider aborts the page with the typed
error and the successful one emits the full page. -/
theorem get_page_transport_error_vs_per_item_miss_witness :
    async_iter_page_article_mention_with_article_meta_and_stats
        (fun _ => none)
        (fun _ => .error (UpstreamTransportError.mk "crossref" (some 503)))
        (fun _ => none)
        [ArticleMention.mk "10.1/a" none none none,
          ArticleMention.mk "10.1/b" none none none,
          ArticleMention.mk "10.1/c" none none none]
        1 (some 3)
      = .error (UpstreamTransportError.mk "crossref" (some 503))
      ∧ ∃ out,
          async_iter_page_article_mention_with_article_meta_and_stats
              (fun _ => none)
              (fun _ => .ok fun d =>
                if d = "10.1/c" then none
                else some (ArticleMetaData.mk d "title" none none))
              (fun _ => none)
              [ArticleMention.mk "10.1/a" none none none,
                ArticleMention.mk "10.1/b" none none none,
                ArticleMention.mk "10.1/c" none none none]
              1 (some 3)
            = .ok out
          ∧ ∀ i : Nat, out[i]?
              = ((async_get_page_iterable
                    (async_iter_article_mention_with_article_stats (fun _ => none)
                      [ArticleMention.mk "10.1/a" none none none,
                        ArticleMention.mk "10.1/b" none none none,
                        ArticleMention.mk "10.1/c" none none none]) 1 (some 3))[i]?).map
                  fun am : ArticleMention =>
                    { am with
                        article_meta :=
                          (fun d =>
                            if d = "10.1/c" then none
                            else some (ArticleMetaData.mk d "title" none none))
                            am.article_doi
                        article_images := some (ArticleImages.mk none) } :=
  get_page_transport_error_vs_per_item_miss
    (fun _ => none) (fun _ => none)
    [ArticleMention.mk "10.1/a" none none none,
      ArticleMention.mk "10.1/b" none none none,
      ArticleMention.mk "10.1/c" none none none]
    1 (some 3)
    (UpstreamTransportError.mk "crossref" (some 503))
    (fun d => if d = "10.1/c" then none else some (ArticleMetaData.mk d "title" none none))
    (fun _ => .error (UpstreamTransportError.mk "crossref" (some 503)))
    (fun _ => .ok fun d =>
      if d = "10.1/c" then none else some (ArticleMetaData.mk d "title" none none))
    (fun _ => rfl) (fun _ => rfl)

/-- Any recommendation produced from OpenSearch hits has a DOI outside
the exclusion set (the skip in the hit loop). -/
theorem mem_iter_article_recommendation_not_excluded
    (hits : List OpenSearchHit) (exclude_article_dois : List String)
    (rec : ArticleRecommendation)
    (h : rec ∈ iter_article_recommendation_from_opensearch_hits
      hits exclude_article_dois) :
    rec.article_doi ∉ exclude_article_dois := by
  simp only [iter_article_recommendation_from_opensearch_hits,
    List.mem_filterMap] at h
  obtain ⟨hit, _, hf⟩ := h
  by_cases hx :
      (get_article_meta_from_document hit.source).article_doi ∈ exclude_article_dois
  · simp [hx] at hf
  · simp only [hx, if_neg, ite_false, Option.some.injEq] at hf
    subst hf
    exact hx

/-- Claim C9: the recommendation list returned for an article DOI never
contains a recommendation for that same DOI: the query article is
excluded from its own recommendations. -/
theorem get_article_recommendation_list_excludes_query_doi
    (client_get : String → Option OpenSearchGetDoc)
    (client_search : List Int → Nat → List OpenSearchHit)
    (now : Nat) (article_doi : String) (max_recommendations : Option Nat)
    (rec : ArticleRecommendation)
    (h : rec ∈ (get_article_recommendation_list_for_article_doi
      client_get client_search now article_doi max_recommendations).recommendations) :
    rec.article_doi ≠ article_doi := by
  unfold get_article_recommendation_list_for_article_doi at h
  cases hg : client_get article_doi with
  | none => simp [hg] at h
  | some doc =>
      cases he : doc.embedding with
      | none => simp [hg, he] at h
      | some embedding_vector =>
          by_cases hv : embedding_vector.length = 0
          · simp [hg, he, hv] at h
          · simp only [hg, he, hv, ite_false, if_neg] at h
            have hmem := mem_iter_article_recommendation_not_excluded _ _ _ h
            simpa using hmem

/-- Witness for C9: a search whose hits include the queried DOI itself;
the emitted recommendation for the other hit has a different DOI. -/
theorem get_article_recommendation_list_excludes_query_doi_witness :
    (ArticleRecommendation.mk "10.1/other"
          (ArticleMetaData.mk "10.1/other" "Other title" none none)
        ∈ (get_article_recommendation_list_for_article_doi
            (fun _ => some (OpenSearchGetDoc.mk (some [1, 2])))
            (fun _ _ =>
              [OpenSearchHit.mk (OpenSearchHitSource.mk "10.1/query" "Query title"),
                OpenSearchHit.mk (OpenSearchHitSource.mk "10.1/other" "Other title")])
            7 "10.1/query" none).recommendations)
      ∧ (ArticleRecommendation.mk "10.1/other"
          (ArticleMetaData.mk "10.1/other" "Other title" none none)).article_doi
        ≠ "10.1/query" :=
  ⟨by decide,
    get_article_recommendation_list_excludes_query_doi
      (fun _ => some (OpenSearchGetDoc.mk (some [1, 2])))
      (fun _ _ =>
        [OpenSearchHit.mk (OpenSearchHitSource.mk "10.1/query" "Query title"),
          OpenSearchHit.mk (OpenSearchHitSource.mk "10.1/other" "Other title")])
      7 "10.1/query" none
      (ArticleRecommendation.mk "10.1/other"
        (ArticleMetaData.mk "10.1/other" "Other title" none none))
      (by decide)⟩

/-- Processing one ArticleRemovedFromList event whose article id is
absent from that list's article set leaves every list's article set
unchanged (the caught KeyError is the total List.erase of an absent
element). -/
theorem processScietyEvent_removal_of_absent_article
    (state : ScietyEventListsModelState) (event : ScietyEvent) (a : String)
    (hname : event.event_name = ARTICLE_REMOVED_FROM_LIST)
    (ha : event.article_id = some a)
    (hmem : a ∉ state.article_ids_by_list_id event.sciety_list.list_id) :
    (processScietyEvent state event).article_ids_by_list_id
      = state.article_ids_by_list_id := by
  obtain ⟨ts, name, slist, suser, aid⟩ := event
  simp only at hname ha hmem
  subst hname
  subst ha
  by_cases h1 : slist.list_id = "" <;> by_cases h2 : a = "" <;>
    cases suser <;>
    · funext k
      by_cases hk : k = slist.list_id
      · subst hk
        simp [processScietyEvent, ListMetaData.from_sciety_event_list_meta,
          h1, h2, ARTICLE_REMOVED_FROM_LIST, ARTICLE_ADDED_TO_LIST,
          List.erase_of_not_mem hmem]
      · simp [processScietyEvent, ListMetaData.from_sciety_event_list_meta,
          h1, h2, hk, ARTICLE_REMOVED_FROM_LIST, ARTICLE_ADDED_TO_LIST]

/-- Claim C10: for every event sequence, appending an
ArticleRemovedFromList event whose article id is not in that list's
article set changes no list's article set (and hence no article_count):
the fold is total over such events. -/
theorem lists_model_removal_of_absent_article
    (sciety_events : List ScietyEvent) (event : ScietyEvent) (a : String)
    (hname : event.event_name = ARTICLE_REMOVED_FROM_LIST)
    (ha : event.article_id = some a)
    (hmem : a ∉ (scietyEventListsModelInit sciety_events).article_ids_by_list_id
      event.sciety_list.list_id) :
    (scietyEventListsModelInit (sciety_events ++ [event])).article_ids_by_list_id
        = (scietyEventListsModelInit sciety_events).article_ids_by_list_id
      ∧ ∀ list_id,
          ((scietyEventListsModelInit (sciety_events ++ [event])).article_ids_by_list_id list_id).length
            = ((scietyEventListsModelInit sciety_events).article_ids_by_list_id list_id).length := by
  have hstep := processScietyEvent_removal_of_absent_article
    (scietyEventListsModelInit sciety_events) event a hname ha hmem
  have hfold :
      scietyEventListsModelInit (sciety_events ++ [event])
        = processScietyEvent (scietyEventListsModelInit sciety_events) event := by
    simp [scietyEventListsModelInit, List.foldl_append]
  rw [hfold, hstep]
  exact ⟨rfl, fun _ => rfl⟩

/-- Witness for C10: removing an article that was never added to the
list leaves the article sets of the model unchanged. -/
theorem lists_model_removal_of_absent_article_witness :
    ((ScietyEvent.mk 2 "ArticleRemovedFromList" (ScietyList.mk "L1" "N1" "D1")
          (some (ScietyUser.mk "https://avatar/1")) (some "doi:y")).event_name
        = ARTICLE_REMOVED_FROM_LIST)
      ∧ ("doi:y" ∉ (scietyEventListsModelInit
          [ScietyEvent.mk 1 "ArticleAddedToList" (ScietyList.mk "L1" "N1" "D1")
            (some (ScietyUser.mk "https://avatar/1")) (some "doi:x")]).article_ids_by_list_id "L1")
      ∧ (scietyEventListsModelInit
            ([ScietyEvent.mk 1 "ArticleAddedToList" (ScietyList.mk "L1" "N1" "D1")
                (some (ScietyUser.mk "https://avatar/1")) (some "doi:x")]
              ++ [ScietyEvent.mk 2 "ArticleRemovedFromList" (ScietyList.mk "L1" "N1" "D1")
                (some (ScietyUser.mk "https://avatar/1")) (some "doi:y")])).article_ids_by_list_id
        = (scietyEventListsModelInit
            [ScietyEvent.mk 1 "ArticleAddedToList" (ScietyList.mk "L1" "N1" "D1")
              (some (ScietyUser.mk "https://avatar/1")) (some "doi:x")]).article_ids_by_list_id :=
  ⟨rfl, by decide,
    (lists_model_removal_of_absent_article
      [ScietyEvent.mk 1 "ArticleAddedToList" (ScietyList.mk "L1" "N1" "D1")
        (some (ScietyUser.mk "https://avatar/1")) (some "doi:x")]
      (ScietyEvent.mk 2 "ArticleRemovedFromList" (ScietyList.mk "L1" "N1" "D1")
        (some (ScietyUser.mk "https://avatar/1")) (some "doi:y"))
      "doi:y" rfl rfl (by decide)).1⟩

end ScietyDiscovery
